import Mathlib

/-!
Shallow embedding of the loop-planning and pipeline-building logic of
src/backend/services/ffmpeg_processor.py (class VideoProcessor) of the
vtuber-loop-generator repository.  Float arithmetic of the source is
modelled with exact rationals, and the nominal durations produced by the
ffmpeg filters used there (tpad, trim, reverse, xfade, concat,
stream_loop together with the -t output option) are modelled exactly.
-/

namespace LoopGen

/-- Rounding as performed by the Python built-in round function:
round half to even. -/
def pyRound (x : ℚ) : ℤ :=
  if x - ⌊x⌋ < 1/2 then ⌊x⌋
  else if 1/2 < x - ⌊x⌋ then ⌊x⌋ + 1
  else if ⌊x⌋ % 2 = 0 then ⌊x⌋ else ⌊x⌋ + 1

/-- Model of the Python str.strip method with no argument: remove
whitespace characters from both ends of the string. -/
def pyStrip (s : String) : String :=
  String.mk (((s.data.dropWhile Char.isWhitespace).reverse.dropWhile Char.isWhitespace).reverse)

/-- Value supplied for the resolution parameter of
VideoProcessor._normalize_resolution: None, a Python string, or a value
of some other type. -/
inductive PyStr
  | none
  | str (s : String)
  | nonStr
  deriving DecidableEq

/-- Embedding of VideoProcessor._normalize_resolution: a falsy value
(None or the empty string) or a non-string gives "Original"; otherwise
the stripped string is returned when it is one of the four recognized
tokens, else "Original". -/
def normalize_resolution (resolution : PyStr) : String :=
  match resolution with
  | .none => "Original"
  | .nonStr => "Original"
  | .str s =>
    if s = "" then "Original"
    else
      let r := pyStrip s
      if r = "Original" ∨ r = "720p" ∨ r = "1080p" ∨ r = "4K" then r else "Original"

/-- Value supplied for the speed parameter of
VideoProcessor._normalize_speed: None, a numeric value (floats are
modelled by rationals), or a value on which float() raises. -/
inductive PyNum
  | none
  | num (x : ℚ)
  | nonNumeric
  deriving DecidableEq

/-- Embedding of VideoProcessor._normalize_speed: None or a
non-convertible value gives 1.0; a numeric value is kept when it is
exactly 0.5, 1.0 or 2.0 and replaced by 1.0 otherwise. -/
def normalize_speed (speed : PyNum) : ℚ :=
  match speed with
  | .none => 1
  | .nonNumeric => 1
  | .num x => if x = 1/2 ∨ x = 1 ∨ x = 2 then x else 1

/-- The three loop modes of the LoopMode enum in the source. -/
inductive LoopMode
  | simple
  | pingpong
  | crossfade
  deriving DecidableEq

/-- Fixed width used by the crossfade strategy, constant
MAX_WIDTH_CROSSFADE = 854 in the source. -/
def MAX_WIDTH_CROSSFADE : ℤ := 854

/-- Timing and resolution plan computed by the first part of
VideoProcessor.process (lines 47 to 84): normalized resolution and
speed, effective duration after the speed change, repeat count, and the
resolution after the two memory-safety overrides. -/
structure ProcessPlan where
  target_resolution : String
  speed : ℚ
  effective_duration : ℚ
  loops : ℤ
  input_height : ℤ
  input_fps : ℚ
  deriving DecidableEq

/-- Embedding of the planning part of VideoProcessor.process: normalize
the resolution and speed, compute effective_duration = base / speed and
loops = max(1, ceil(target / effective_duration)), then apply the
Original-above-720 override followed by the crossfade 480p override, in
that order. -/
def process_plan (mode : LoopMode) (target_duration : ℤ) (resolution : PyStr)
    (speed_in : PyNum) (base_duration : ℚ) (input_height : ℤ) (input_fps : ℚ) :
    ProcessPlan :=
  let target_resolution := normalize_resolution resolution
  let speed := normalize_speed speed_in
  let effective_duration := base_duration / speed
  let loops : ℤ := max 1 ⌈(target_duration : ℚ) / effective_duration⌉
  let target_resolution :=
    if target_resolution = "Original" ∧ 720 < input_height then "720p"
    else target_resolution
  let target_resolution :=
    if mode = LoopMode.crossfade then "480p" else target_resolution
  { target_resolution := target_resolution
    speed := speed
    effective_duration := effective_duration
    loops := loops
    input_height := input_height
    input_fps := input_fps }

/-!  Media prober embeddings.  Each ffprobe invocation is modelled by
the data the source inspects: the return code of the subprocess, whether
the stripped standard output is empty, and the outcome of parsing that
output (a parse failure of float or int is the none case). -/

/-- Embedding of VideoProcessor.get_video_duration: a nonzero return
code raises, a text that float() cannot parse raises, otherwise the
parsed value is returned. -/
def get_video_duration (returncode : ℤ) (parsed : Option ℚ) : Except String ℚ :=
  if returncode ≠ 0 then Except.error "ffprobe failed"
  else
    match parsed with
    | some v => Except.ok v
    | Option.none => Except.error "Invalid duration from ffprobe"

/-- Embedding of VideoProcessor.get_video_height: a nonzero return code
or empty output gives 0, a text that int() cannot parse gives 0,
otherwise the parsed value is returned. -/
def get_video_height (returncode : ℤ) (stdout_empty : Bool) (parsed : Option ℤ) : ℤ :=
  if returncode ≠ 0 ∨ stdout_empty = true then 0
  else
    match parsed with
    | some v => v
    | Option.none => 0

/-- Shape of the r_frame_rate text inspected by
VideoProcessor.get_video_fps: either it contains a slash, in which case
the two parts are parsed by float() (none marks a parse failure), or it
does not and is parsed as a single float. -/
inductive FpsText
  | fraction (num den : Option ℚ)
  | plain (v : Option ℚ)
  deriving DecidableEq

/-- Parse failure of the r_frame_rate text: a fraction with an
unparsable part, or an unparsable plain value. -/
def fps_parse_failed : FpsText → Bool
  | .fraction (some _) (some _) => false
  | .fraction _ _ => true
  | .plain (some _) => false
  | .plain Option.none => true

/-- Embedding of VideoProcessor.get_video_fps: a nonzero return code or
empty output gives 30.0; a fraction n/d gives n / d when d > 0 and 30.0
otherwise; a parse failure gives 30.0. -/
def get_video_fps (returncode : ℤ) (stdout_empty : Bool) (text : FpsText) : ℚ :=
  if returncode ≠ 0 ∨ stdout_empty = true then 30
  else
    match text with
    | .fraction (some n) (some d) => if 0 < d then n / d else 30
    | .fraction _ _ => 30
    | .plain (some v) => v
    | .plain Option.none => 30

/-- Embedding of the probing prefix of VideoProcessor.process: the
duration probe runs first and any failure aborts the request; a
nonpositive probed duration also aborts; otherwise the plan is computed
from the probed values, where the height and fps probes cannot fail. -/
def process_run (mode : LoopMode) (target_duration : ℤ) (resolution : PyStr)
    (speed_in : PyNum) (drc : ℤ) (dparsed : Option ℚ)
    (hrc : ℤ) (hempty : Bool) (hparsed : Option ℤ)
    (frc : ℤ) (fempty : Bool) (ftext : FpsText) :
    Except String ProcessPlan :=
  match get_video_duration drc dparsed with
  | Except.error e => Except.error e
  | Except.ok base_duration =>
    if base_duration ≤ 0 then
      Except.error "Could not determine input video duration"
    else
      Except.ok (process_plan mode target_duration resolution speed_in base_duration
        (get_video_height hrc hempty hparsed)
        (get_video_fps frc fempty ftext))

/-!  Crossfade strategy computations, from VideoProcessor.crossfade_loop. -/

/-- Crossfade window from line 552 of the source:
max(0.1, min(crossfade_seconds, clip_duration / 2)). -/
def crossfade_window (crossfade_seconds clip_duration : ℚ) : ℚ :=
  max (1/10) (min crossfade_seconds (clip_duration / 2))

/-- Crossfade offset from line 553 of the source:
max(0.0, clip_duration - crossfade). -/
def crossfade_offset (crossfade_seconds clip_duration : ℚ) : ℚ :=
  max 0 (clip_duration - crossfade_window crossfade_seconds clip_duration)

/-- Loop count of the crossfade strategy, lines 599 and 600 of the
source: approx = max(1, target / cycle), count = max(1, int(round(approx))). -/
def crossfade_loop_count (target_duration : ℤ) (cycle_duration : ℚ) : ℤ :=
  max 1 (pyRound (max 1 ((target_duration : ℚ) / cycle_duration)))

/-- Length to which the looped crossfade clip is trimmed, line 601 of
the source: cycle_duration * loop_count. -/
def crossfade_total_duration (target_duration : ℤ) (cycle_duration : ℚ) : ℚ :=
  cycle_duration * ((crossfade_loop_count target_duration cycle_duration : ℤ) : ℚ)

/-- A trim filter call given by start and duration, the form used in
step 4 of crossfade_loop. -/
structure TrimSeg where
  start : ℚ
  duration : ℚ
  deriving DecidableEq

/-- Head segment of the wraparound pass: trim(start=0, duration=crossfade). -/
def cross_head (crossfade : ℚ) : TrimSeg :=
  { start := 0, duration := crossfade }

/-- Mid segment of the wraparound pass:
trim(start=crossfade, duration=L - 3 * crossfade). -/
def cross_mid (L crossfade : ℚ) : TrimSeg :=
  { start := crossfade, duration := L - 3 * crossfade }

/-- Tail segment of the wraparound pass:
trim(start=L - 2 * crossfade, duration=crossfade). -/
def cross_tail (L crossfade : ℚ) : TrimSeg :=
  { start := L - 2 * crossfade, duration := crossfade }

/-- Modelled from the spec wording of section 4.4.3 step 5, for
comparison with cross_tail: the last crossfade_window seconds of the
looped clip, the segment of length crossfade starting at L - crossfade. -/
def tail_last_window (L crossfade : ℚ) : TrimSeg :=
  { start := L - crossfade, duration := crossfade }

/-- Result of step 4 of crossfade_loop: either the wraparound dissolve
output concat(mid, xfade(tail, head, duration, offset)), or a plain
copy of the looped clip. -/
inductive CrossfadeFinal
  | wrapped (mid tail head : TrimSeg) (xfade_duration xfade_offset : ℚ)
  | copied
  deriving DecidableEq

/-- Embedding of step 4 of crossfade_loop (lines 625 to 675): when the
measured length L of the looped clip exceeds 3 * crossfade, the output
is concat of the mid segment with the dissolve of tail into head at
offset 0 and duration crossfade; otherwise the looped clip is copied
unchanged. -/
def crossfade_step4 (L crossfade : ℚ) : CrossfadeFinal :=
  if 3 * crossfade < L then
    CrossfadeFinal.wrapped (cross_mid L crossfade) (cross_tail L crossfade)
      (cross_head crossfade) crossfade 0
  else
    CrossfadeFinal.copied

/-- Filter stages appearing at the head of the crossfade chain. -/
inductive FilterStage
  | scale (w h : ℤ)
  | setpts (factor : ℚ)
  | fps (value : ℤ)
  deriving DecidableEq

/-- Embedding of the pre-processing filter chain of crossfade_loop
(lines 557 to 572): an unconditional scale to width
MAX_WIDTH_CROSSFADE ignoring the requested resolution, then either
setpts plus fps when the speed differs from 1, or only the fps fix. -/
def crossfade_prefilters (_target_resolution : String) (speed input_fps : ℚ) :
    List FilterStage :=
  FilterStage.scale MAX_WIDTH_CROSSFADE (-2) ::
    (if speed ≠ 1 then
      [FilterStage.setpts (1 / speed),
       FilterStage.fps (max 1 (pyRound (input_fps * speed)))]
    else
      [FilterStage.fps (max 1 (pyRound input_fps))])

/-- Argument tuple handed by VideoProcessor.process to crossfade_loop
(lines 114 to 127): the pause parameters of the request are not among
them. -/
structure CrossfadeArgs where
  target_duration : ℤ
  loops : ℤ
  crossfade_seconds : ℚ
  clip_duration : ℚ
  target_resolution : String
  input_height : ℤ
  speed : ℚ
  input_fps : ℚ
  deriving DecidableEq

/-- Embedding of the crossfade dispatch of VideoProcessor.process: the
arguments passed to crossfade_loop as a function of the full request,
including the two pause parameters, which the source never reads on
this path. -/
def process_dispatch_crossfade (target_duration : ℤ) (crossfade_seconds : ℚ)
    (resolution : PyStr) (speed_in : PyNum) (base_duration : ℚ)
    (input_height : ℤ) (input_fps : ℚ)
    (_start_pause_seconds _end_pause_seconds : ℚ) : CrossfadeArgs :=
  let plan := process_plan LoopMode.crossfade target_duration resolution speed_in
    base_duration input_height input_fps
  { target_duration := target_duration
    loops := plan.loops
    crossfade_seconds := crossfade_seconds
    clip_duration := plan.effective_duration
    target_resolution := plan.target_resolution
    input_height := input_height
    speed := plan.speed
    input_fps := input_fps }

/-!  PingPong strategy timing, from VideoProcessor.pingpong_loop.  The
durations are the nominal durations of the filter outputs: tpad with
clone mode adds exactly the requested pause, reverse preserves the
duration, trim keeps exactly the requested duration. -/

/-- Frame rate in effect after the optional speed change, line 436 of
the source: max(1, round(input_fps * speed)) when the speed differs
from 1, else the probed input fps. -/
def effective_fps (speed input_fps : ℚ) : ℚ :=
  if speed ≠ 1 then ((max 1 (pyRound (input_fps * speed)) : ℤ) : ℚ)
  else input_fps

/-- Nominal duration of one ping-pong cycle: segment A is
start_pause + effective clip + end_pause, segment B is the reversed
clip, and when end_pause is positive a pause segment of one frame
padded by end_pause is appended. -/
def pingpong_cycle_duration (eff start_pause end_pause speed input_fps : ℚ) : ℚ :=
  (start_pause + eff + end_pause) + eff +
    (if 0 < end_pause then 1 / effective_fps speed input_fps + end_pause else 0)

/-- Nominal duration of the output of a loop stage that repeats a cycle
loops times via stream_loop and cuts it with -t target: the minimum of
loops * cycle and the target. -/
def trimmed_output_duration (loops : ℤ) (cycle_duration : ℚ) (target_duration : ℤ) : ℚ :=
  min ((loops : ℚ) * cycle_duration) (target_duration : ℚ)

/-!  Cleanup behaviour of the three strategies.  The file system is
modelled by the list of intermediate artifacts currently on disk; each
run of the transform engine either succeeds, adding its output, or
raises, in which case the strategy exits with the artifacts that exist
at that point.  The error payload of the Except value is the list of
intermediate artifacts still on disk when the exception propagates out
of the strategy; the ok payload is the list still on disk at normal
return. -/

/-- Intermediate artifacts named by the three strategies. -/
inductive TempFile
  | paused
  | prepared
  | temp_a
  | temp_b
  | temp_pause
  | concat_list
  | cycle
  | cross_cycle
  | looped
  deriving DecidableEq

/-- One engine invocation: on failure the exception carries the current
artifact list, on success the output artifact, when it is an
intermediate one, is added. -/
def run_ffmpeg_step (fails : Bool) (creates : Option TempFile)
    (s : List TempFile) : Except (List TempFile) (List TempFile) :=
  if fails then Except.error s
  else
    Except.ok (match creates with
      | some t => t :: s
      | Option.none => s)

/-- Shape of a simple_loop request: whether a pause is requested
(start or end pause positive) and whether a scale or speed change
forces an intermediate encode. -/
structure SimpleCfg where
  has_pause : Bool
  needs_encode : Bool
  deriving DecidableEq

/-- Failure pattern for simple_loop: whether the preparation encode
fails and whether the final loop run fails. -/
structure SimpleFail where
  prep_fails : Bool
  loop_fails : Bool
  deriving DecidableEq

/-- Embedding of the artifact lifecycle of VideoProcessor.simple_loop:
an optional preparation encode producing the paused or prepared file,
the loop run producing the final output, then deletion of the loop
source when it is not the original input.  The deletion statements sit
after the loop run, not in a finally block. -/
def simple_loop_run (cfg : SimpleCfg) (f : SimpleFail) :
    Except (List TempFile) (List TempFile) := do
  let s : List TempFile := []
  let (s, loop_source) ←
    if cfg.has_pause then do
      let s ← run_ffmpeg_step f.prep_fails (some TempFile.paused) s
      pure (s, some TempFile.paused)
    else if cfg.needs_encode then do
      let s ← run_ffmpeg_step f.prep_fails (some TempFile.prepared) s
      pure (s, some TempFile.prepared)
    else
      pure (s, (Option.none : Option TempFile))
  let s ← run_ffmpeg_step f.loop_fails Option.none s
  let s :=
    match loop_source with
    | some t => s.erase t
    | Option.none => s
  pure s

/-- Failure pattern for pingpong_loop: one flag per engine invocation
in source order. -/
structure PingFail where
  a_fails : Bool
  b_fails : Bool
  pause_fails : Bool
  concat_fails : Bool
  loop_fails : Bool
  deriving DecidableEq

/-- Embedding of the artifact lifecycle of VideoProcessor.pingpong_loop:
encodes of temp_a and temp_b, the optional pause encode, the write of
the concat list file, the concat run producing the cycle, deletion of
the four earlier artifacts, the loop run producing the final output,
and finally deletion of the cycle.  Both deletion blocks sit after the
respective runs, not in finally blocks. -/
def pingpong_loop_run (end_pause_pos : Bool) (f : PingFail) :
    Except (List TempFile) (List TempFile) := do
  let s : List TempFile := []
  let s ← run_ffmpeg_step f.a_fails (some TempFile.temp_a) s
  let s ← run_ffmpeg_step f.b_fails (some TempFile.temp_b) s
  let s ←
    if end_pause_pos then
      run_ffmpeg_step f.pause_fails (some TempFile.temp_pause) s
    else
      pure s
  let s := TempFile.concat_list :: s
  let s ← run_ffmpeg_step f.concat_fails (some TempFile.cycle) s
  let s := ((s.erase TempFile.temp_a).erase TempFile.temp_b).erase TempFile.concat_list
  let s := if end_pause_pos then s.erase TempFile.temp_pause else s
  let s ← run_ffmpeg_step f.loop_fails Option.none s
  let s := s.erase TempFile.cycle
  pure s

/-- Failure pattern for crossfade_loop: the cycle encode, the probe of
the cycle duration (a raise of get_video_duration or a nonpositive
duration), the loop run, the probe of the looped clip, and the final
run or copy. -/
structure CrossFail where
  cycle_fails : Bool
  probe_cycle_fails : Bool
  loop_fails : Bool
  probe_looped_fails : Bool
  final_fails : Bool
  deriving DecidableEq

/-- Embedding of the artifact lifecycle of VideoProcessor.crossfade_loop:
the cycle encode, the duration probe of the cycle, the loop run
producing the looped clip, the duration probe of the looped clip, the
final run or copy producing the output, then deletion of the cycle and
looped clips.  The deletion block sits after the final run, not in a
finally block. -/
def crossfade_loop_run (f : CrossFail) :
    Except (List TempFile) (List TempFile) := do
  let s : List TempFile := []
  let s ← run_ffmpeg_step f.cycle_fails (some TempFile.cross_cycle) s
  let s ← run_ffmpeg_step f.probe_cycle_fails Option.none s
  let s ← run_ffmpeg_step f.loop_fails (some TempFile.looped) s
  let s ← run_ffmpeg_step f.probe_looped_fails Option.none s
  let s ← run_ffmpeg_step f.final_fails Option.none s
  let s := (s.erase TempFile.cross_cycle).erase TempFile.looped
  pure s

/-!  Helper lemmas shared by the claim theorems. -/

/-- The normalized speed is always one of the three supported values. -/
theorem normalize_speed_mem (sp : PyNum) :
    normalize_speed sp = 1/2 ∨ normalize_speed sp = 1 ∨ normalize_speed sp = 2 := by
  cases sp with
  | none => exact Or.inr (Or.inl rfl)
  | nonNumeric => exact Or.inr (Or.inl rfl)
  | num x =>
    by_cases h : x = 1/2 ∨ x = 1 ∨ x = 2
    · simp only [normalize_speed, if_pos h]
      exact h
    · have h1 : normalize_speed (.num x) = 1 := by
        simp only [normalize_speed, if_neg h]
      rw [h1]
      exact Or.inr (Or.inl rfl)

/-- The normalized resolution is always one of the four supported tokens. -/
theorem normalize_resolution_mem (r : PyStr) :
    normalize_resolution r = "Original" ∨ normalize_resolution r = "720p" ∨
      normalize_resolution r = "1080p" ∨ normalize_resolution r = "4K" := by
  cases r with
  | none => exact Or.inl rfl
  | nonStr => exact Or.inl rfl
  | str s =>
    by_cases hs : s = ""
    · simp [normalize_resolution, hs]
    · by_cases h : pyStrip s = "Original" ∨ pyStrip s = "720p" ∨
          pyStrip s = "1080p" ∨ pyStrip s = "4K"
      · simp only [normalize_resolution, if_neg hs, if_pos h]
        exact h
      · simp [normalize_resolution, hs, h]

/-- Python round of a value of the unit interval is at most 1. -/
theorem pyRound_le_one (x : ℚ) (h0 : 0 ≤ x) (h1 : x < 1) : pyRound x ≤ 1 := by
  have hf : ⌊x⌋ = 0 := Int.floor_eq_zero_iff.mpr ⟨h0, h1⟩
  simp only [pyRound, hf]
  split_ifs <;> norm_num

/-- Python round fixes 1. -/
theorem pyRound_one : pyRound 1 = 1 := by
  norm_num [pyRound]

/-- The speed projection of the plan is the normalized speed. -/
theorem process_plan_speed (mode : LoopMode) (t : ℤ) (res : PyStr) (sp : PyNum)
    (base : ℚ) (h : ℤ) (fps : ℚ) :
    (process_plan mode t res sp base h fps).speed = normalize_speed sp := rfl

/-- The effective duration projection of the plan. -/
theorem process_plan_effective (mode : LoopMode) (t : ℤ) (res : PyStr) (sp : PyNum)
    (base : ℚ) (h : ℤ) (fps : ℚ) :
    (process_plan mode t res sp base h fps).effective_duration =
      base / normalize_speed sp := rfl

/-- The loop count projection of the plan. -/
theorem process_plan_loops (mode : LoopMode) (t : ℤ) (res : PyStr) (sp : PyNum)
    (base : ℚ) (h : ℤ) (fps : ℚ) :
    (process_plan mode t res sp base h fps).loops =
      max 1 ⌈(t : ℚ) / (base / normalize_speed sp)⌉ := rfl

/-- The resolution projection of the plan. -/
theorem process_plan_resolution (mode : LoopMode) (t : ℤ) (res : PyStr) (sp : PyNum)
    (base : ℚ) (h : ℤ) (fps : ℚ) :
    (process_plan mode t res sp base h fps).target_resolution =
      (if mode = LoopMode.crossfade then "480p"
       else if normalize_resolution res = "Original" ∧ 720 < h then "720p"
       else normalize_resolution res) := rfl

/-!  Claim theorems. -/

/-- C1: for a Simple or PingPong request with positive probed base
duration and positive target duration, the plan computed by process has
a normalized speed among 0.5, 1.0, 2.0, an effective clip duration
equal to base divided by that speed, a repeat count equal to
max(1, ceil(target / effective)), and in particular at least 1. -/
theorem C1_simple_pingpong_loop_plan (mode : LoopMode) (target_duration : ℤ)
    (resolution : PyStr) (speed_in : PyNum) (base_duration : ℚ)
    (input_height : ℤ) (input_fps : ℚ)
    (hmode : mode = LoopMode.simple ∨ mode = LoopMode.pingpong)
    (hbase : 0 < base_duration) (htarget : 0 < target_duration) :
    ((process_plan mode target_duration resolution speed_in base_duration input_height input_fps).speed = 1/2 ∨
      (process_plan mode target_duration resolution speed_in base_duration input_height input_fps).speed = 1 ∨
      (process_plan mode target_duration resolution speed_in base_duration input_height input_fps).speed = 2) ∧
    (process_plan mode target_duration resolution speed_in base_duration input_height input_fps).effective_duration =
      base_duration /
        (process_plan mode target_duration resolution speed_in base_duration input_height input_fps).speed ∧
    (process_plan mode target_duration resolution speed_in base_duration input_height input_fps).loops =
      max 1 ⌈(target_duration : ℚ) /
        (process_plan mode target_duration resolution speed_in base_duration input_height input_fps).effective_duration⌉ ∧
    1 ≤ (process_plan mode target_duration resolution speed_in base_duration input_height input_fps).loops := by
  refine ⟨?_, rfl, rfl, ?_⟩
  · simpa [process_plan_speed] using normalize_speed_mem speed_in
  · rw [process_plan_loops]
    exact le_max_left 1 _

/-- Witness for C1 at a concrete Simple request: a 5 second input with
target 20 at speed 1 gives effective duration 5 and 4 loops. -/
theorem C1_witness :
    (LoopMode.simple = LoopMode.simple ∨ LoopMode.simple = LoopMode.pingpong) ∧
    (0 : ℚ) < 5 ∧ (0 : ℤ) < 20 ∧
    (((process_plan .simple 20 (.str "Original") (.num 1) 5 0 30).speed = 1/2 ∨
      (process_plan .simple 20 (.str "Original") (.num 1) 5 0 30).speed = 1 ∨
      (process_plan .simple 20 (.str "Original") (.num 1) 5 0 30).speed = 2) ∧
    (process_plan .simple 20 (.str "Original") (.num 1) 5 0 30).effective_duration =
      5 / (process_plan .simple 20 (.str "Original") (.num 1) 5 0 30).speed ∧
    (process_plan .simple 20 (.str "Original") (.num 1) 5 0 30).loops =
      max 1 ⌈(20 : ℚ) /
        (process_plan .simple 20 (.str "Original") (.num 1) 5 0 30).effective_duration⌉ ∧
    1 ≤ (process_plan .simple 20 (.str "Original") (.num 1) 5 0 30).loops) :=
  ⟨Or.inl rfl, by norm_num, by norm_num,
    C1_simple_pingpong_loop_plan LoopMode.simple 20 (.str "Original") (.num 1) 5 0 30
      (Or.inl rfl) (by norm_num) (by norm_num)⟩

/-- C2 counterexample: at effective clip duration 0.1 (which is
positive) and crossfade_seconds 5, the window actually used is 0.1,
which exceeds half the clip duration 0.05; the claim that the window
never exceeds effective_clip_duration / 2 is therefore false. -/
theorem C2_counterexample :
    (0 : ℚ) < 1/10 ∧
    crossfade_window 5 (1/10) = 1/10 ∧
    ¬ crossfade_window 5 (1/10) ≤ (1/10) / 2 := by
  refine ⟨by norm_num, ?_, ?_⟩ <;> norm_num [crossfade_window]

/-- C2 amended: the window equals
clamp(crossfade_seconds, 0.1, clip / 2) for all inputs, the offset
equals max(0, clip - window) for all inputs, and whenever the effective
clip duration is at least 0.2 the window is at most half the clip and
the offset equals clip minus window. -/
theorem C2_crossfade_window_clamp (crossfade_seconds clip_duration : ℚ)
    (h : 1/5 ≤ clip_duration) :
    crossfade_window crossfade_seconds clip_duration =
      max (1/10) (min crossfade_seconds (clip_duration / 2)) ∧
    crossfade_offset crossfade_seconds clip_duration =
      max 0 (clip_duration - crossfade_window crossfade_seconds clip_duration) ∧
    crossfade_window crossfade_seconds clip_duration ≤ clip_duration / 2 ∧
    crossfade_offset crossfade_seconds clip_duration =
      clip_duration - crossfade_window crossfade_seconds clip_duration := by
  have hw : crossfade_window crossfade_seconds clip_duration ≤ clip_duration / 2 := by
    apply max_le
    · linarith
    · exact min_le_right _ _
  have hnn : 0 ≤ clip_duration - crossfade_window crossfade_seconds clip_duration := by
    have : clip_duration / 2 ≤ clip_duration := by linarith
    linarith
  exact ⟨rfl, rfl, hw, max_eq_right hnn⟩

/-- Witness for C2 amended at a 10 second clip with a 1 second
crossfade request. -/
theorem C2_witness :
    (1/5 : ℚ) ≤ 10 ∧
    (crossfade_window 1 10 = max (1/10) (min 1 (10 / 2)) ∧
     crossfade_offset 1 10 = max 0 (10 - crossfade_window 1 10) ∧
     crossfade_window 1 10 ≤ 10 / 2 ∧
     crossfade_offset 1 10 = 10 - crossfade_window 1 10) :=
  ⟨by norm_num, C2_crossfade_window_clamp 1 10 (by norm_num)⟩

/-- C3 counterexample: at a looped clip of length 10 with crossfade
window 2 the wraparound pass runs, but the tail segment the code
dissolves starts at 6 = L - 2 * crossfade, not at 8 = L - crossfade;
the tail is not the last crossfade_window seconds of the looped clip. -/
theorem C3_counterexample :
    crossfade_step4 10 2 =
      CrossfadeFinal.wrapped (cross_mid 10 2) (cross_tail 10 2) (cross_head 2) 2 0 ∧
    cross_tail 10 2 = { start := 6, duration := 2 } ∧
    tail_last_window 10 2 = { start := 8, duration := 2 } ∧
    cross_tail 10 2 ≠ tail_last_window 10 2 := by
  refine ⟨?_, ?_, ?_, ?_⟩
  · rw [crossfade_step4, if_pos (by norm_num)]
  · norm_num [cross_tail]
  · norm_num [tail_last_window]
  · norm_num [cross_tail, tail_last_window]

/-- C3 amended: when the measured length L of the looped clip exceeds
3 times the crossfade window, the output is the concat of the mid
segment, which covers the interval from crossfade to L - 2 * crossfade,
with the dissolve at offset 0 and duration crossfade of the tail
segment, which is the crossfade-long window starting at
L - 2 * crossfade, into the head segment, the first crossfade seconds;
otherwise the looped clip is copied unchanged and no error is raised. -/
theorem C3_wraparound_pass (L crossfade : ℚ) :
    (3 * crossfade < L →
      crossfade_step4 L crossfade =
        CrossfadeFinal.wrapped (cross_mid L crossfade) (cross_tail L crossfade)
          (cross_head crossfade) crossfade 0 ∧
      (cross_mid L crossfade).start = crossfade ∧
      (cross_mid L crossfade).start + (cross_mid L crossfade).duration =
        L - 2 * crossfade ∧
      (cross_tail L crossfade).start = L - 2 * crossfade ∧
      (cross_tail L crossfade).duration = crossfade ∧
      (cross_head crossfade).start = 0 ∧
      (cross_head crossfade).duration = crossfade) ∧
    (¬ 3 * crossfade < L → crossfade_step4 L crossfade = CrossfadeFinal.copied) := by
  constructor
  · intro h
    refine ⟨?_, rfl, ?_, rfl, rfl, rfl, rfl⟩
    · rw [crossfade_step4, if_pos h]
    · show crossfade + (L - 3 * crossfade) = L - 2 * crossfade
      ring
  · intro h
    rw [crossfade_step4, if_neg h]

/-- Witness for C3 amended at L = 10, crossfade = 2. -/
theorem C3_witness :
    3 * (2 : ℚ) < 10 ∧
    (crossfade_step4 10 2 =
      CrossfadeFinal.wrapped (cross_mid 10 2) (cross_tail 10 2) (cross_head 2) 2 0 ∧
    (cross_mid 10 2).start = 2 ∧
    (cross_mid 10 2).start + (cross_mid 10 2).duration = 10 - 2 * 2 ∧
    (cross_tail 10 2).start = 10 - 2 * 2 ∧
    (cross_tail 10 2).duration = 2 ∧
    (cross_head 2).start = 0 ∧
    (cross_head 2).duration = 2) :=
  ⟨by norm_num, (C3_wraparound_pass 10 2).1 (by norm_num)⟩

/-- C4: for every positive target duration and positive measured cycle
duration, the repeat count of the crossfade strategy equals
max(1, round(target / cycle)) with Python rounding, the looped clip is
trimmed to loop_count times the cycle duration, and at target 10 with
cycle 7 the realized output length 7 falls short of the target. -/
theorem C4_crossfade_round_count :
    (∀ (target_duration : ℤ) (cycle_duration : ℚ),
      1 ≤ target_duration → 0 < cycle_duration →
      crossfade_loop_count target_duration cycle_duration =
        max 1 (pyRound ((target_duration : ℚ) / cycle_duration)) ∧
      crossfade_total_duration target_duration cycle_duration =
        cycle_duration *
          ((crossfade_loop_count target_duration cycle_duration : ℤ) : ℚ)) ∧
    crossfade_total_duration 10 7 = 7 ∧ (7 : ℚ) < 10 := by
  refine ⟨?_, ?_, by norm_num⟩
  · intro target_duration cycle_duration ht hc
    refine ⟨?_, rfl⟩
    rw [crossfade_loop_count]
    rcases le_or_lt 1 ((target_duration : ℚ) / cycle_duration) with h | h
    · rw [max_eq_right h]
    · rw [max_eq_left h.le, pyRound_one]
      have h0 : 0 < (target_duration : ℚ) / cycle_duration := by
        apply div_pos _ hc
        exact_mod_cast lt_of_lt_of_le one_pos ht
      have hle : pyRound ((target_duration : ℚ) / cycle_duration) ≤ 1 :=
        pyRound_le_one _ h0.le h
      rw [max_eq_left hle]
      norm_num
  · norm_num [crossfade_total_duration, crossfade_loop_count, pyRound]

/-- Witness for C4 at target 10 and cycle 7. -/
theorem C4_witness :
    (1 : ℤ) ≤ 10 ∧ (0 : ℚ) < 7 ∧
    (crossfade_loop_count 10 7 = max 1 (pyRound ((10 : ℚ) / 7)) ∧
     crossfade_total_duration 10 7 =
       7 * ((crossfade_loop_count 10 7 : ℤ) : ℚ)) :=
  ⟨by norm_num, by norm_num, C4_crossfade_round_count.1 10 7 (by norm_num) (by norm_num)⟩

/-- C5: when the normalized requested resolution is Original and the
probed height exceeds 720 the plan forces 720p in the non-crossfade
modes; in crossfade mode the plan resolution is always 480p whatever
the requested resolution, and the crossfade filter chain starts with an
unconditional scale to width MAX_WIDTH_CROSSFADE = 854 preserving
aspect, whatever resolution string it is handed. -/
theorem C5_resolution_policy :
    (∀ (mode : LoopMode) (target_duration : ℤ) (resolution : PyStr) (speed_in : PyNum)
        (base_duration : ℚ) (input_height : ℤ) (input_fps : ℚ),
      mode ≠ LoopMode.crossfade →
      normalize_resolution resolution = "Original" →
      720 < input_height →
      (process_plan mode target_duration resolution speed_in base_duration
        input_height input_fps).target_resolution = "720p") ∧
    (∀ (target_duration : ℤ) (resolution : PyStr) (speed_in : PyNum)
        (base_duration : ℚ) (input_height : ℤ) (input_fps : ℚ),
      (process_plan LoopMode.crossfade target_duration resolution speed_in
        base_duration input_height input_fps).target_resolution = "480p") ∧
    (∀ (resolution : String) (speed input_fps : ℚ),
      (crossfade_prefilters resolution speed input_fps).head? =
        some (FilterStage.scale MAX_WIDTH_CROSSFADE (-2))) := by
  refine ⟨?_, ?_, ?_⟩
  · intro mode t res sp base h fps hmode hres hh
    rw [process_plan_resolution, if_neg hmode, if_pos ⟨hres, hh⟩]
  · intro t res sp base h fps
    rw [process_plan_resolution, if_pos rfl]
  · intro res speed fps
    rfl

/-- Witness for C5 at a Simple request for Original resolution on a
1000 pixel high input, and a crossfade request for 1080p. -/
theorem C5_witness :
    LoopMode.simple ≠ LoopMode.crossfade ∧
    normalize_resolution (.str "Original") = "Original" ∧
    (720 : ℤ) < 1000 ∧
    (process_plan .simple 20 (.str "Original") (.num 1) 5 1000 30).target_resolution = "720p" ∧
    (process_plan .crossfade 20 (.str "1080p") (.num 1) 5 1000 30).target_resolution = "480p" ∧
    (crossfade_prefilters "1080p" 1 30).head? =
      some (FilterStage.scale MAX_WIDTH_CROSSFADE (-2)) :=
  ⟨by decide, by decide, by norm_num,
    C5_resolution_policy.1 .simple 20 (.str "Original") (.num 1) 5 1000 30
      (by decide) (by decide) (by norm_num),
    C5_resolution_policy.2.1 20 (.str "1080p") (.num 1) 5 1000 30,
    C5_resolution_policy.2.2 "1080p" 1 30⟩

/-- C6 counterexample: for the 8 second PingPong example with one
second pauses at speed 1 and target 40, process computes the repeat
count from the effective clip duration, ceil(40 / 8) = 5, not
ceil(40 / 19) = 3, and the nominal cycle length is 19 plus one frame,
not exactly 19. -/
theorem C6_counterexample :
    (process_plan .pingpong 40 (.str "Original") (.num 1) 8 720 30).loops = 5 ∧
    (5 : ℤ) ≠ 3 ∧
    pingpong_cycle_duration 8 1 1 1 30 = 19 + 1/30 ∧
    (19 + 1/30 : ℚ) ≠ 19 := by
  refine ⟨?_, by norm_num, ?_, by norm_num⟩
  · rw [process_plan_loops]
    norm_num [normalize_speed]
  · norm_num [pingpong_cycle_duration, effective_fps]

/-- C6 amended: for the 8 second PingPong example the nominal cycle is
19 plus one frame at 30 fps, the repeat count computed by process is
ceil(40 / 8) = 5, and the looped output is trimmed to exactly the
40 second target since 5 cycles exceed it. -/
theorem C6_pingpong_example :
    pingpong_cycle_duration 8 1 1 1 30 = 19 + 1/30 ∧
    (process_plan .pingpong 40 (.str "Original") (.num 1) 8 720 30).loops = 5 ∧
    trimmed_output_duration 5 (19 + 1/30) 40 = 40 := by
  refine ⟨?_, ?_, ?_⟩
  · norm_num [pingpong_cycle_duration, effective_fps]
  · rw [process_plan_loops]
    norm_num [normalize_speed]
  · rw [trimmed_output_duration]
    norm_num

/-- C7 counterexample: in simple_loop with a pause requested, when the
preparation encode succeeds and the final loop run fails, the strategy
raises while the paused intermediate file still exists; the deletion
statements are not reached on this failure path, so intermediates are
not deleted on all failure paths. -/
theorem C7_counterexample :
    simple_loop_run { has_pause := true, needs_encode := false }
        { prep_fails := false, loop_fails := true } =
      Except.error [TempFile.paused] ∧
    ([TempFile.paused] : List TempFile) ≠ [] := by
  exact ⟨rfl, by simp⟩

/-- C7 amended: on the success path of each of the three strategies
every intermediate artifact is deleted before the strategy returns; on
failure paths of later engine invocations the artifacts created earlier
remain, since the deletion statements are not in finally blocks. -/
theorem C7_cleanup_on_success :
    (∀ cfg : SimpleCfg,
      simple_loop_run cfg { prep_fails := false, loop_fails := false } =
        Except.ok []) ∧
    (∀ end_pause_pos : Bool,
      pingpong_loop_run end_pause_pos
        { a_fails := false, b_fails := false, pause_fails := false,
          concat_fails := false, loop_fails := false } = Except.ok []) ∧
    crossfade_loop_run
        { cycle_fails := false, probe_cycle_fails := false, loop_fails := false,
          probe_looped_fails := false, final_fails := false } = Except.ok [] := by
  refine ⟨?_, ?_, rfl⟩
  · rintro ⟨hp, ne⟩
    cases hp <;> cases ne <;> rfl
  · intro b
    cases b <;> rfl

/-- C8: a duration probe whose tool errors or whose output does not
parse raises, and the whole request errors before any transform runs;
a height probe failure degrades to the sentinel 0 and an fps probe
failure to the sentinel 30.0, and with those sentinels the request
still proceeds to a plan when the duration probe succeeded with a
positive value. -/
theorem C8_probe_error_policy :
    (∀ (rc : ℤ) (parsed : Option ℚ), rc ≠ 0 ∨ parsed = Option.none →
      ∃ e, get_video_duration rc parsed = Except.error e) ∧
    (∀ (mode : LoopMode) (t : ℤ) (res : PyStr) (sp : PyNum) (rc : ℤ)
        (parsed : Option ℚ) (hrc : ℤ) (hemp : Bool) (hparsed : Option ℤ)
        (frc : ℤ) (femp : Bool) (ftext : FpsText),
      rc ≠ 0 ∨ parsed = Option.none →
      ∃ e, process_run mode t res sp rc parsed hrc hemp hparsed frc femp ftext =
        Except.error e) ∧
    (∀ (rc : ℤ) (emp : Bool) (parsed : Option ℤ),
      rc ≠ 0 ∨ emp = true ∨ parsed = Option.none →
      get_video_height rc emp parsed = 0) ∧
    (∀ (rc : ℤ) (emp : Bool) (ftext : FpsText),
      rc ≠ 0 ∨ emp = true ∨ fps_parse_failed ftext = true →
      get_video_fps rc emp ftext = 30) ∧
    (∀ (mode : LoopMode) (t : ℤ) (res : PyStr) (sp : PyNum) (d : ℚ)
        (hrc : ℤ) (hemp : Bool) (hparsed : Option ℤ)
        (frc : ℤ) (femp : Bool) (ftext : FpsText),
      0 < d →
      process_run mode t res sp 0 (some d) hrc hemp hparsed frc femp ftext =
        Except.ok (process_plan mode t res sp d
          (get_video_height hrc hemp hparsed) (get_video_fps frc femp ftext))) := by
  have hdur : ∀ (rc : ℤ) (parsed : Option ℚ), rc ≠ 0 ∨ parsed = Option.none →
      ∃ e, get_video_duration rc parsed = Except.error e := by
    intro rc parsed h
    by_cases hrc : rc ≠ 0
    · exact ⟨"ffprobe failed", by simp [get_video_duration, hrc]⟩
    · rcases h with h | h
      · exact absurd h hrc
      · subst h
        exact ⟨"Invalid duration from ffprobe", by simp [get_video_duration, hrc]⟩
  refine ⟨hdur, ?_, ?_, ?_, ?_⟩
  · intro mode t res sp rc parsed hrc hemp hparsed frc femp ftext h
    obtain ⟨e, he⟩ := hdur rc parsed h
    exact ⟨e, by simp [process_run, he]⟩
  · intro rc emp parsed h
    rcases h with h | h | h
    · simp [get_video_height, h]
    · simp [get_video_height, h]
    · subst h
      by_cases hrc : rc ≠ 0 ∨ emp = true <;> simp [get_video_height, hrc]
  · intro rc emp ftext h
    rcases h with h | h | h
    · simp [get_video_fps, h]
    · simp [get_video_fps, h]
    · by_cases hrc : rc ≠ 0 ∨ emp = true
      · simp [get_video_fps, hrc]
      · cases ftext with
        | fraction n d =>
          cases n with
          | none => simp [get_video_fps, hrc]
          | some nv =>
            cases d with
            | none => simp [get_video_fps, hrc]
            | some dv => simp [fps_parse_failed] at h
        | plain v =>
          cases v with
          | none => simp [get_video_fps, hrc]
          | some vv => simp [fps_parse_failed] at h
  · intro mode t res sp d hrc hemp hparsed frc femp ftext hd
    have h1 : get_video_duration 0 (some d) = Except.ok d := by
      simp [get_video_duration]
    simp [process_run, h1, not_le.mpr hd]

/-- Witness for C8: a failing duration probe errors and aborts the
request, a failing height probe gives 0, a failing fps probe gives 30,
and a request with good duration and failing height and fps probes
proceeds to a plan. -/
theorem C8_witness :
    (∃ e, get_video_duration 1 (some 5) = Except.error e) ∧
    (∃ e, process_run .simple 20 (.str "Original") (.num 1) 1 (some 5)
        0 false (some 700) 0 false (.plain (some 30)) = Except.error e) ∧
    get_video_height 1 false (some 700) = 0 ∧
    get_video_fps 0 false (.plain Option.none) = 30 ∧
    process_run .simple 20 (.str "Original") (.num 1) 0 (some 5)
        1 false (some 700) 0 false (.plain Option.none) =
      Except.ok (process_plan .simple 20 (.str "Original") (.num 1) 5
        (get_video_height 1 false (some 700)) (get_video_fps 0 false (.plain Option.none))) :=
  ⟨C8_probe_error_policy.1 1 (some 5) (Or.inl (by norm_num)),
   C8_probe_error_policy.2.1 .simple 20 (.str "Original") (.num 1) 1 (some 5)
     0 false (some 700) 0 false (.plain (some 30)) (Or.inl (by norm_num)),
   C8_probe_error_policy.2.2.1 1 false (some 700) (Or.inl (by norm_num)),
   C8_probe_error_policy.2.2.2.1 0 false (.plain Option.none) (Or.inr (Or.inr rfl)),
   C8_probe_error_policy.2.2.2.2 .simple 20 (.str "Original") (.num 1) 5
     1 false (some 700) 0 false (.plain Option.none) (by norm_num)⟩

/-- C9 counterexample: the string " 720p " with surrounding spaces is
not one of the four tokens, yet normalize_resolution maps it to "720p",
not to "Original"; the claim that every input outside the set maps to
Original is therefore false. -/
theorem C9_counterexample :
    normalize_resolution (.str " 720p ") = "720p" ∧
    ¬(" 720p " = "Original" ∨ " 720p " = "720p" ∨
      " 720p " = "1080p" ∨ " 720p " = "4K") ∧
    normalize_resolution (.str " 720p ") ≠ "Original" := by
  exact ⟨by decide, by decide, by decide⟩

/-- C9 amended: normalize_resolution maps every input whose stripped
form is outside the four tokens, including None, the empty string and
non-strings, to Original, and maps an input whose stripped form is a
token to that stripped form; normalize_speed maps every numeric value
other than 0.5, 1.0, 2.0, as well as None and non-numeric values, to
1.0; both functions are idempotent. -/
theorem C9_normalization :
    (∀ s : String,
      ¬(pyStrip s = "Original" ∨ pyStrip s = "720p" ∨
        pyStrip s = "1080p" ∨ pyStrip s = "4K") →
      normalize_resolution (.str s) = "Original") ∧
    (normalize_resolution PyStr.none = "Original" ∧
      normalize_resolution PyStr.nonStr = "Original") ∧
    (∀ s : String,
      (pyStrip s = "Original" ∨ pyStrip s = "720p" ∨
        pyStrip s = "1080p" ∨ pyStrip s = "4K") →
      normalize_resolution (.str s) = pyStrip s) ∧
    (∀ x : ℚ, ¬(x = 1/2 ∨ x = 1 ∨ x = 2) → normalize_speed (.num x) = 1) ∧
    (normalize_speed PyNum.none = 1 ∧ normalize_speed PyNum.nonNumeric = 1) ∧
    (∀ r : PyStr,
      normalize_resolution (.str (normalize_resolution r)) = normalize_resolution r) ∧
    (∀ sp : PyNum,
      normalize_speed (.num (normalize_speed sp)) = normalize_speed sp) := by
  have hstr : ∀ s : String,
      (pyStrip s = "Original" ∨ pyStrip s = "720p" ∨
        pyStrip s = "1080p" ∨ pyStrip s = "4K") →
      normalize_resolution (.str s) = pyStrip s := by
    intro s h
    have hs : s ≠ "" := by
      intro he
      subst he
      exact absurd h (by decide)
    simp only [normalize_resolution, if_neg hs, if_pos h]
  refine ⟨?_, ⟨rfl, rfl⟩, hstr, ?_, ⟨rfl, rfl⟩, ?_, ?_⟩
  · intro s h
    by_cases hs : s = ""
    · simp [normalize_resolution, hs]
    · simp only [normalize_resolution, if_neg hs, if_neg h]
  · intro x h
    simp only [normalize_speed, if_neg h]
  · intro r
    rcases normalize_resolution_mem r with h | h | h | h <;> rw [h] <;> decide
  · intro sp
    rcases normalize_speed_mem sp with h | h | h <;> rw [h] <;>
      norm_num [normalize_speed]

/-- Witness for C9 at concrete inputs: an unrecognized string maps to
Original, a padded token maps to the stripped token, the speed 3 maps
to 1, and normalization of " 1080p " is idempotent. -/
theorem C9_witness :
    normalize_resolution (.str "foo") = "Original" ∧
    normalize_resolution (.str " 1080p ") = pyStrip " 1080p " ∧
    normalize_speed (.num 3) = 1 ∧
    normalize_resolution (.str (normalize_resolution (.str " 1080p "))) =
      normalize_resolution (.str " 1080p ") :=
  ⟨C9_normalization.1 "foo" (by decide),
   C9_normalization.2.2.1 " 1080p " (by decide),
   C9_normalization.2.2.2.1 3 (by norm_num),
   C9_normalization.2.2.2.2.2.1 (.str " 1080p ")⟩

/-- C10: in crossfade mode the argument tuple process hands to the
crossfade strategy, and with it the pipeline the strategy builds, is
the same for any two requests that differ only in the start and end
pause parameters: those parameters are never passed to crossfade_loop. -/
theorem C10_crossfade_pause_independence (target_duration : ℤ)
    (crossfade_seconds : ℚ) (resolution : PyStr) (speed_in : PyNum)
    (base_duration : ℚ) (input_height : ℤ) (input_fps : ℚ)
    (start_pause_a end_pause_a start_pause_b end_pause_b : ℚ) :
    process_dispatch_crossfade target_duration crossfade_seconds resolution
        speed_in base_duration input_height input_fps start_pause_a end_pause_a =
      process_dispatch_crossfade target_duration crossfade_seconds resolution
        speed_in base_duration input_height input_fps start_pause_b end_pause_b :=
  rfl

end LoopGen
